import Mathlib

/-!
Verification development for the Cantata device layer (UMS devices and
audio-CD devices).  The definitions below are a shallow embedding of the
C++ sources `src/unnamed/part_001` (UmsDevice) and
`src/devices/audiocddevice.cpp` (AudioCdDevice): Qt strings become lists
of characters, member functions become pure functions over explicit state
records, emitted Qt signals become event lists, and collaborator services
that live outside these two translation units (filesystem, encoder
registry, library model, cover service) become oracle functions carried in
an environment record.  Machine integers (`quint32`) are natural numbers
reduced modulo `2 ^ 32` where the source can overflow; floating-point
capacity fractions are modelled as exact rationals.
-/

namespace Cantata

/-- Qt strings are modelled as lists of characters. -/
abbrev Str := List Char

/-- Shorthand turning a Lean string literal into the `Str` model. -/
def str (s : String) : Str := s.data

/-- `DeviceOptions`: the persisted configuration bag, restricted to the
fields the two embedded translation units read or write. -/
structure DeviceOptions where
  scheme : Str
  coverName : Str
  name : Str
  vfatSafe : Bool
  asciiOnly : Bool
  ignoreThe : Bool
  replaceSpaces : Bool
  fixVariousArtists : Bool
  autoScan : Bool
  useCache : Bool
deriving DecidableEq

/-! ## UmsDevice (src/unnamed/part_001) -/

/-- `constMusicFolderKey` from `part_001` line 37. -/
def constMusicFolderKey : Str := str "audio_folder"

/-- `constCollectionNameKey` from `part_001` line 38. -/
def constCollectionNameKey : Str := str "collection_name"

/-- Modelled from the spec: `constMusicFilenameSchemeKey` is declared in
FsDevice, which is not part of the provided sources; the spec only calls
it "a filename-scheme key". -/
def constMusicFilenameSchemeKey : Str := str "filename_scheme"

/-- Modelled from the spec: `constVfatSafeKey` is declared in FsDevice,
not in the provided sources; the settings round-trip property in the spec
spells the key as `vfat_safe`. -/
def constVfatSafeKey : Str := str "vfat_safe"

/-- Modelled from the spec: `constAsciiOnlyKey` is declared in FsDevice,
not in the provided sources ("an ASCII-only boolean key"). -/
def constAsciiOnlyKey : Str := str "ascii_only"

/-- Modelled from the spec: `constIgnoreTheKey` is declared in FsDevice,
not in the provided sources ("an ignore leading The boolean key"). -/
def constIgnoreTheKey : Str := str "ignore_the"

/-- Modelled from the spec: `constReplaceSpacesKey` is declared in
FsDevice, not in the provided sources ("a replace-spaces boolean key"). -/
def constReplaceSpacesKey : Str := str "replace_spaces"

/-- Modelled from the spec: `constDefCoverFileName` is declared in
FsDevice, not in the provided sources; its exact value is irrelevant to
every claim below. -/
def constDefCoverFileName : Str := str "cover.jpg"

/-- `QString::section('=', 1, 1)`: the second `=`-separated field of a
line, or the empty string when the line has no `=`. -/
def sectionVal (line : Str) : Str :=
  match line.splitOn '=' with
  | _ :: v :: _ => v
  | _ => []

/-- `QString::trimmed()` on the model. -/
def trimStr (s : Str) : Str :=
  ((s.dropWhile Char.isWhitespace).reverse.dropWhile Char.isWhitespace).reverse

/-- The `toString(bool)` helper of `part_001` lines 239-242. -/
def boolStr (b : Bool) : Str := if b then str "true" else str "false"

/-- Observable state of a `UmsDevice` (fields of the C++ object that the
embedded member functions read or write). -/
structure UmsState where
  connected : Bool
  mountPath : Str
  size : Nat
  used : Nat
  cacheProgress : Int
  statusMessage : Str
  dataName : Str
  defaultName : Str
  audioFolder : Str
  configured : Bool
  scanned : Bool
  unusedParams : List Str
  opts : DeviceOptions
deriving DecidableEq

/-- Oracles for the collaborators of `UmsDevice::setup` that live outside
the embedded sources: the settings file contents, `FsDevice::readOpts`,
`Utils::cleanPath`, directory existence, and `Utils::formatByteSize`. -/
structure UmsEnv where
  fileLines : Option (List Str)
  haveOpts : Bool
  readOptsF : DeviceOptions → DeviceOptions
  cleanPath : Str → Str
  dirExists : Str → Bool
  fmtBytes : Int → Str

/-- Signals emitted by the embedded `UmsDevice` member functions. -/
inductive UmsEvent where
  | rescanEvt (full : Bool)
  | renamedEvt
deriving DecidableEq

/-- Accumulator of the line-reading loop in `UmsDevice::setup`
(`part_001` lines 148-175). -/
structure ParseAcc where
  afSetting : Str
  audioFolder : Str
  opts : DeviceOptions
  unusedParams : List Str
deriving DecidableEq

/-- One iteration of the settings-file loop of `UmsDevice::setup`
(`part_001` lines 150-174). -/
def parseLine (env : UmsEnv) (path : Str) (acc : ParseAcc) (line : Str) : ParseAcc :=
  if (constMusicFolderKey ++ str "=").isPrefixOf line then
    let af := env.cleanPath (path ++ str "/" ++ sectionVal line)
    { acc with afSetting := af, audioFolder := if env.dirExists af then af else path }
  else if (constMusicFilenameSchemeKey ++ str "=").isPrefixOf line then
    let sch := sectionVal line
    if sch = [] then acc else { acc with opts := { acc.opts with scheme := sch } }
  else if (constVfatSafeKey ++ str "=").isPrefixOf line then
    { acc with opts := { acc.opts with vfatSafe := sectionVal line == str "true" } }
  else if (constAsciiOnlyKey ++ str "=").isPrefixOf line then
    { acc with opts := { acc.opts with asciiOnly := sectionVal line == str "true" } }
  else if (constIgnoreTheKey ++ str "=").isPrefixOf line then
    { acc with opts := { acc.opts with ignoreThe := sectionVal line == str "true" } }
  else if (constReplaceSpacesKey ++ str "=").isPrefixOf line then
    { acc with opts := { acc.opts with replaceSpaces := sectionVal line == str "true" } }
  else if (constCollectionNameKey ++ str "=").isPrefixOf line then
    { acc with opts := { acc.opts with name := trimStr (sectionVal line) } }
  else
    { acc with unusedParams := acc.unusedParams ++ [line] }

/-- A settings line begins with one of the recognized keys of
`UmsDevice::setup`. -/
def recognizedLine (line : Str) : Bool :=
  (constMusicFolderKey ++ str "=").isPrefixOf line
  || (constMusicFilenameSchemeKey ++ str "=").isPrefixOf line
  || (constVfatSafeKey ++ str "=").isPrefixOf line
  || (constAsciiOnlyKey ++ str "=").isPrefixOf line
  || (constIgnoreTheKey ++ str "=").isPrefixOf line
  || (constReplaceSpacesKey ++ str "=").isPrefixOf line
  || (constCollectionNameKey ++ str "=").isPrefixOf line

/-- The conventional music folders probed by `UmsDevice::setup`
(`part_001` lines 188-190). -/
def probeDirs : List Str := [str "Music", str "MUSIC", str "Albums", str "ALBUMS"]

/-- `UmsDevice::setup` (`part_001` lines 132-213): re-reads the
`.is_audio_player` settings file, resolves the audio folder, and decides
on a rescan and a rename. -/
def setup (env : UmsEnv) (st : UmsState) : UmsState × List UmsEvent :=
  if st.connected = false then (st, [])
  else
    let path := st.mountPath
    let n := st.dataName
    let opts0 := env.readOptsF st.opts
    let acc0 : ParseAcc := ⟨[], path, opts0, st.unusedParams⟩
    let fileOpened := env.fileLines.isSome
    let acc := match env.fileLines with
      | some lines => lines.foldl (parseLine env path) acc0
      | none => acc0
    let configured2 := (st.configured || fileOpened) || env.haveOpts
    let opts1 := if acc.opts.coverName = [] then
        { acc.opts with coverName := constDefCoverFileName } else acc.opts
    let af1 := if acc.afSetting = [] ∨ acc.afSetting ≠ acc.audioFolder then
        match (probeDirs.map (fun d => path ++ d)).find? env.dirExists with
        | some d => d
        | none => acc.audioFolder
      else acc.audioFolder
    let af2 := if af1.getLast? = some '/' then af1 else af1 ++ ['/']
    let doScan := opts1.autoScan || st.scanned
    let sm := if doScan then st.statusMessage else str "Not Scanned"
    let renameNeeded : Bool := !(opts1.name == []) && !(opts1.name == n)
    let dn := if renameNeeded then opts1.name else st.dataName
    let evs := (if doScan then [UmsEvent.rescanEvt false] else [])
      ++ (if renameNeeded then [UmsEvent.renamedEvt] else [])
    ({ st with audioFolder := af2, configured := configured2,
               unusedParams := acc.unusedParams, opts := opts1,
               statusMessage := sm, dataName := dn }, evs)

/-- The relative folder path written by `UmsDevice::saveOptions`
(`part_001` lines 252-256): the audio folder, rewritten relative to the
mount root when it lies under it. -/
def fixedPathOf (st : UmsState) : Str :=
  if st.mountPath.isPrefixOf st.audioFolder then
    str "./" ++ st.audioFolder.drop st.mountPath.length
  else st.audioFolder

/-- The recognized-key lines written by `UmsDevice::saveOptions`
(`part_001` lines 259-281).  Note: the source guards the VFAT-safe line
with a second test of the filename scheme (`opts.scheme!=def.scheme`,
lines 267-269), not with a test of `vfatSafe`; the model mirrors that
guard exactly. -/
def saveKeyLines (d : DeviceOptions) (st : UmsState) : List Str :=
  (if fixedPathOf st ≠ [] then [constMusicFolderKey ++ str "=" ++ fixedPathOf st] else [])
  ++ (if st.opts.scheme ≠ d.scheme then
        [constMusicFilenameSchemeKey ++ str "=" ++ st.opts.scheme] else [])
  ++ (if st.opts.scheme ≠ d.scheme then
        [constVfatSafeKey ++ str "=" ++ boolStr st.opts.vfatSafe] else [])
  ++ (if st.opts.asciiOnly ≠ d.asciiOnly then
        [constAsciiOnlyKey ++ str "=" ++ boolStr st.opts.asciiOnly] else [])
  ++ (if st.opts.ignoreThe ≠ d.ignoreThe then
        [constIgnoreTheKey ++ str "=" ++ boolStr st.opts.ignoreThe] else [])
  ++ (if st.opts.replaceSpaces ≠ d.replaceSpaces then
        [constReplaceSpacesKey ++ str "=" ++ boolStr st.opts.replaceSpaces] else [])
  ++ (if st.opts.name ≠ [] ∧ st.opts.name ≠ st.defaultName then
        [constCollectionNameKey ++ str "=" ++ st.opts.name] else [])

/-- `UmsDevice::saveOptions` (`part_001` lines 244-287): the lines written
to the settings file (`none` when disconnected, in which case the file is
not rewritten).  `d` is the default-constructed `DeviceOptions def` of
line 258. -/
def saveOptionsLines (d : DeviceOptions) (st : UmsState) : Option (List Str) :=
  if st.connected = false then none
  else some (saveKeyLines d st ++ st.unusedParams)

/-- `UmsDevice::usedCapacity` (`part_001` lines 99-109); the doubles of
the source are modelled as exact rationals. -/
def usedCapacity (st : UmsState) : ℚ :=
  if st.cacheProgress > -1 then (st.cacheProgress : ℚ) / 100
  else if st.connected = false then -1
  else if 0 < st.size then (st.used : ℚ) / (st.size : ℚ) else -1

/-- `UmsDevice::capacityString` (`part_001` lines 111-121). -/
def capacityString (env : UmsEnv) (st : UmsState) : Str :=
  if st.cacheProgress > -1 then st.statusMessage
  else if st.connected = false then str "Not Connected"
  else env.fmtBytes ((st.size : Int) - (st.used : Int)) ++ str " free"

/-- `UmsDevice::freeSpace` (`part_001` lines 123-130). -/
def freeSpace (st : UmsState) : Int :=
  if st.connected = false then 0
  else (st.size : Int) - (st.used : Int)

/-! ## AudioCdDevice (src/devices/audiocddevice.cpp) -/

/-- The fields of `Song` read or written by the embedded AudioCdDevice
code.  `isVariousArtists` records the result of the (external)
`Song::isVariousArtists()` predicate as part of the value. -/
structure Song where
  file : Str
  title : Str
  artist : Str
  albumartist : Str
  album : Str
  time : Nat
  size : Nat
  isVariousArtists : Bool
deriving DecidableEq

/-- `CdAlbum`: a disc metadata lookup result. -/
structure CdAlbum where
  name : Str
  artist : Str
  composer : Str
  genre : Str
  year : Nat
  disc : Nat
  tracks : List Song
  isDefault : Bool
deriving DecidableEq

/-- The copy-action status codes of the `Device` base class used by
`audiocddevice.cpp` (including the `DirCreationFaild` spelling of the
source). -/
inductive Status where
  | notConnected
  | songExists
  | codecNotAvailable
  | dirCreationFaild
  | ok
deriving DecidableEq

/-- Signals emitted by the embedded AudioCdDevice member functions. -/
inductive CdEvent where
  | actionStatus (s : Status) (coverCopied : Bool)
  | progress (pc : Int)
  | matchesEvt (id : Str) (albums : List CdAlbum)
  | play (tracks : List Song)
  | updatedDetails (tracks : List Song)
  | updating (id : Str) (b : Bool)
deriving DecidableEq

/-- Observable state of an `AudioCdDevice`. -/
structure CdState where
  jobAbortRequested : Bool
  lookupInProcess : Bool
  autoPlay : Bool
  needToFixVa : Bool
  idStr : Str
  dataName : Str
  album : Str
  artist : Str
  composer : Str
  genre : Str
  statusMessage : Str
  detailsString : Str
  currentDestFile : Str
  devicePath : Str
  year : Nat
  disc : Nat
  time : Nat
  childSongs : List Song
  updateTracks : Option (List Song)
  currentSong : Song
  coverImage : Str
  opts : DeviceOptions
deriving DecidableEq

/-- An encoder resolved by the (external) `Encoders::getEncoder`; only
its extension rewriting is observable here. -/
structure EncoderM where
  changeExt : Str → Str

/-- Oracles for the collaborators of the AudioCdDevice code that live
outside `audiocddevice.cpp`: connection state, `Device::fixVariousArtists`,
`MpdLibraryModel::songExists`, the encoder registry, the MPD collection
root, directory primitives, Mopidy path encoding,
`Song::revertVariousArtists`, the track-count formatter, the cover
service, and the device's synthetic path. -/
structure CdEnv where
  connected : Bool
  fixVA : Song → Song
  songExists : Song → Bool
  encoder : Option EncoderM
  baseDir : Str
  getDirOf : Str → Str
  dirExists : Str → Bool
  createDirOk : Bool
  isMopidy : Bool
  encodePath : Str → Str
  revertVA : Song → Song
  fmtTracks : Nat → Nat → Str
  requestImage : Song → Option Str
  devPath : Str

/-- Modelled from the spec: `Song::constCddaProtocol` is declared outside
the provided sources; the spec only says cover identities are "prefixed
with the CD protocol scheme". -/
def constCddaProtocol : Str := str "cdda://"

/-- `AudioCdDevice::constAnyDev` (`audiocddevice.cpp` line 45). -/
def constAnyDev : Str := str "-"

/-- `AudioCdDevice::coverUrl` (`audiocddevice.cpp` lines 47-55). -/
def coverUrl (udi : Str) : Str :=
  constCddaProtocol ++ udi.map (fun c =>
    if c = ' ' ∨ c = '\n' ∨ c = '\t' ∨ c = '/' ∨ c = ':' then '_' else c)

/-- `constBytesPerSecond` (`audiocddevice.cpp` line 336). -/
def constBytesPerSecond : Nat := 44100 * 4

/-- Field initializers of the `AudioCdDevice` constructor
(`audiocddevice.cpp` lines 78-126): `year(0)`, `disc(0)`,
`time(0xFFFFFFFF)`, `autoPlay(false)`, and — once a device path is known —
`lookupInProcess=true` with the "Reading disc" status. -/
def initCdState (idv : Str) (o : DeviceOptions) (s0 : Song) : CdState where
  jobAbortRequested := false
  lookupInProcess := true
  autoPlay := false
  needToFixVa := false
  idStr := idv
  dataName := []
  album := []
  artist := []
  composer := []
  genre := []
  statusMessage := str "Reading disc"
  detailsString := str "Reading disc"
  currentDestFile := []
  devicePath := []
  year := 0
  disc := 0
  time := 0xFFFFFFFF
  childSongs := []
  updateTracks := none
  currentSong := s0
  coverImage := []
  opts := o

/-- Result of one `copySongTo` call: the new state, the emitted
`actionStatus` signals, and the extraction job started (if any). -/
structure CopyOutcome where
  newSt : CdState
  events : List CdEvent
  job : Option (Str × Str × Song × Str)
deriving DecidableEq

/-- Body of `AudioCdDevice::copySongTo` after the initial
`jobAbortRequested=false` assignment (`audiocddevice.cpp` lines 238-280). -/
def copySongToGo (env : CdEnv) (st : CdState) (s : Song) (musicPath : Str)
    (overwrite copyCover : Bool) : CopyOutcome :=
  if env.connected = false then
    ⟨st, [CdEvent.actionStatus Status.notConnected false], none⟩
  else
    let st := { st with needToFixVa := st.opts.fixVariousArtists && s.isVariousArtists }
    if overwrite = false ∧
        env.songExists (if st.needToFixVa then env.fixVA s else s) = true then
      ⟨st, [CdEvent.actionStatus Status.songExists false], none⟩
    else
      match env.encoder with
      | none => ⟨st, [CdEvent.actionStatus Status.codecNotAvailable false], none⟩
      | some enc =>
        let dest := enc.changeExt (env.baseDir ++ musicPath)
        let st := { st with currentDestFile := dest }
        if env.dirExists (env.getDirOf dest) = false ∧ env.createDirOk = false then
          ⟨st, [CdEvent.actionStatus Status.dirCreationFaild false], none⟩
        else
          let st := { st with currentSong := s }
          ⟨st, [], some (st.devicePath, dest, s,
                         if copyCover then st.coverImage else [])⟩

/-- `AudioCdDevice::copySongTo` (`audiocddevice.cpp` lines 235-280): the
very first statement resets `jobAbortRequested` to `false`. -/
def copySongTo (env : CdEnv) (st : CdState) (s : Song) (musicPath : Str)
    (overwrite copyCover : Bool) : CopyOutcome :=
  copySongToGo env { st with jobAbortRequested := false } s musicPath overwrite copyCover

/-- One `quint32 time += song.time` step of `AudioCdDevice::totalTime`. -/
def timeSumStep (acc : Nat) (s : Song) : Nat := (acc + s.time) % 4294967296

/-- `AudioCdDevice::totalTime` (`audiocddevice.cpp` lines 282-292):
returns the (possibly freshly computed) total and the state with the
cached `time` field. -/
def totalTime (st : CdState) : Nat × CdState :=
  if st.time = 4294967295 then
    let t := st.childSongs.foldl timeSumStep 0
    (t, { st with time := t })
  else (st.time, st)

/-- Result of one `percent` callback: whether the sending job was asked
to stop, and the emitted `progress` signals. -/
structure PercentOutcome where
  stopRequested : Bool
  events : List CdEvent
deriving DecidableEq

/-- `AudioCdDevice::percent` (`audiocddevice.cpp` lines 294-304).
`senderIsJob` records whether the Qt `sender()` cast to `FileJob`
succeeds. -/
def percentRun (st : CdState) (pc : Int) (senderIsJob : Bool) : PercentOutcome :=
  if st.jobAbortRequested = true ∧ pc ≠ 100 then ⟨senderIsJob, []⟩
  else ⟨false, [CdEvent.progress pc]⟩

/-- Result of one `copySongToResult` completion callback: the new state,
whether the partially written destination file was deleted, and the
emitted `actionStatus` signals. -/
structure ResultOutcome where
  newSt : CdState
  deleted : Bool
  events : List CdEvent
deriving DecidableEq

/-- `AudioCdDevice::copySongToResult` (`audiocddevice.cpp` lines
306-334).  `jobPresent`, `started` and `destExists` record the `sender()`
cast, `job->wasStarted()` and `QFile::exists(currentDestFile)`;
`coverCopied` records `job->coverCopied()`. -/
def copySongToResult (env : CdEnv) (st : CdState) (status : Status)
    (jobPresent started destExists coverCopied : Bool) : ResultOutcome :=
  if st.jobAbortRequested = true then
    ⟨st, jobPresent && started && destExists, []⟩
  else
    match status with
    | Status.ok =>
      let f1 := st.currentDestFile.drop env.baseDir.length
      let f2 := if env.isMopidy then env.encodePath f1 else f1
      let s1 := { st.currentSong with file := f2 }
      let s2 := if st.needToFixVa then env.revertVA s1 else s1
      ⟨{ st with currentSong := s2 }, false,
       [CdEvent.actionStatus Status.ok (jobPresent && coverCopied)]⟩
    | s => ⟨st, false, [CdEvent.actionStatus s false]⟩

/-- The synthetic cover-request `Song` built inside
`AudioCdDevice::setDetails` (`audiocddevice.cpp` lines 360-365). -/
def coverSongFor (idv : Str) (a : CdAlbum) : Song where
  file := coverUrl idv
  title := idv
  artist := a.artist
  albumartist := a.artist
  album := a.name
  time := 0
  size := 0
  isVariousArtists := false

/-- `AudioCdDevice::setDetails` (`audiocddevice.cpp` lines 338-378):
installs a resolved `CdAlbum`, rebuilds the pending track subtree with
synthetic sizes, optionally fetches a cover, then plays or announces the
current (old) child tracks. -/
def setDetails (env : CdEnv) (st : CdState) (a : CdAlbum) : CdState × List CdEvent :=
  let differentAlbum := st.album ≠ a.name ∨ st.artist ≠ a.artist
  let tracks := a.tracks.map (fun s => { s with size := s.time * constBytesPerSecond })
  let totalDuration := (a.tracks.map (fun s => s.time)).sum
  let st1 : CdState := { st with
    lookupInProcess := false, dataName := a.artist, album := a.name,
    artist := a.artist, composer := a.composer, genre := a.genre,
    year := a.year, disc := a.disc, updateTracks := some tracks,
    statusMessage := [],
    detailsString := env.fmtTracks a.tracks.length totalDuration }
  let st2 := if differentAlbum ∧ a.isDefault = false then
      match env.requestImage (coverSongFor st1.idStr a) with
      | some f => { st1 with coverImage := f }
      | none => st1
    else st1
  let listed := st2.childSongs.map (fun s => { s with file := env.devPath ++ s.file })
  if st2.autoPlay = true then
    ({ st2 with autoPlay := false },
     [CdEvent.updating st.idStr false] ++ (if listed = [] then [] else [CdEvent.play listed]))
  else
    (st2,
     [CdEvent.updating st.idStr false] ++ (if listed = [] then [] else [CdEvent.updatedDetails listed]))

/-- `AudioCdDevice::cdMatches` (`audiocddevice.cpp` lines 380-389). -/
def cdMatches (env : CdEnv) (st : CdState) (albums : List CdAlbum) : CdState × List CdEvent :=
  let st1 : CdState := { st with lookupInProcess := false }
  match albums with
  | [a] => setDetails env st1 a
  | [] => (st1, [])
  | _ => (st1, [CdEvent.matchesEvt st.idStr albums])

/-! ### Device URL parsing (`AudioCdDevice::getDevice`) -/

/-- A parsed URL as seen by `AudioCdDevice::getDevice`: scheme, path and
decoded query items. -/
structure UrlM where
  scheme : Str
  path : Str
  query : List (Str × Str)
deriving DecidableEq

/-- `QUrlQuery::hasQueryItem`. -/
def hasQueryItem (q : List (Str × Str)) (k : Str) : Bool :=
  (q.find? (fun p => p.1 == k)).isSome

/-- `QUrlQuery::queryItemValue`: the value of the first matching item, or
the empty string. -/
def queryItemValue (q : List (Str × Str)) (k : Str) : Str :=
  match q.find? (fun p => p.1 == k) with
  | some p => p.2
  | none => []

/-- `QString::lastIndexOf` restricted to start positions `≤ n`. -/
def lastIndexOfFrom (s pat : Str) : Nat → Option Nat
  | 0 => if pat.isPrefixOf s then some 0 else none
  | n + 1 =>
    if pat.isPrefixOf (s.drop (n + 1)) then some (n + 1)
    else lastIndexOfFrom s pat n

/-- `QString::lastIndexOf`: the largest start position of an occurrence
of `pat` in `s`, if any. -/
def lastIndexOf (s pat : Str) : Option Nat := lastIndexOfFrom s pat s.length

/-- The gvfs host-mount marker of `AudioCdDevice::getDevice`
(`audiocddevice.cpp` line 69). -/
def gvfsMarker : Str := str "/gvfs/cdda:host="

/-- `AudioCdDevice::getDevice` (`audiocddevice.cpp` lines 57-76). -/
def getDevice (u : UrlM) : Str :=
  if u.scheme = str "cdda" then
    if hasQueryItem u.query (str "dev") then queryItemValue u.query (str "dev")
    else constAnyDev
  else if (str "/run/user/").isPrefixOf u.path then
    match lastIndexOf u.path gvfsMarker with
    | some pos => str "/dev/" ++ u.path.drop (pos + gvfsMarker.length)
    | none => []
  else []

/-! ## Helper lemmas -/

/-- Membership in a conditional singleton determines the element. -/
lemma mem_iteSingleton {α : Type} {c : Prop} [Decidable c] {x l : α}
    (h : l ∈ (if c then [x] else [])) : l = x := by
  split at h
  · simpa using h
  · simp at h

/-- A list is a Boolean prefix of itself followed by anything. -/
lemma prefixOf_append_self (a b : Str) : a.isPrefixOf (a ++ b) = true := by
  rw [List.isPrefixOf_iff_prefix]
  exact List.prefix_append a b

/-- `copySongToGo` never touches the pending-abort flag. -/
lemma copySongToGo_abort (env : CdEnv) (st : CdState) (s : Song) (mp : Str)
    (ow cc : Bool) :
    (copySongToGo env st s mp ow cc).newSt.jobAbortRequested = st.jobAbortRequested := by
  simp only [copySongToGo]
  repeat (first | rfl | split)

/-! ## Sample inputs used by the witnesses -/

/-- A stand-in for the default-constructed `DeviceOptions`. -/
def sampleOpts : DeviceOptions :=
  ⟨str "%artist%/%album%/%track%", str "cover.jpg", [], false, false, false,
   false, false, false, false⟩

/-- A sample UMS environment. -/
def umsEnv0 : UmsEnv :=
  ⟨none, false, id, id, fun _ => false, fun _ => str "X"⟩

/-- A disconnected UMS device with no cache rebuild pending. -/
def umsStDis : UmsState :=
  ⟨false, str "/mnt/", 100, 40, -1, [], str "N", str "N", str "/mnt/Music/",
   true, false, [], sampleOpts⟩

/-- A connected UMS device with no cache rebuild pending. -/
def umsStCon : UmsState := { umsStDis with connected := true }

/-- A connected UMS device in the middle of a cache rebuild. -/
def umsStCache : UmsState :=
  { umsStDis with connected := true, cacheProgress := 50,
                  statusMessage := str "Updating..." }

/-- A sample CD track. -/
def songA : Song :=
  ⟨str "01.wav", str "T", str "A", str "A", str "Al", 120, 0, false⟩

/-- A freshly constructed CD device state. -/
def cdSt0 : CdState := initCdState (str "UDI") sampleOpts songA

/-- A sample CD environment where everything succeeds and the destination
song does not yet exist. -/
def cdEnv0 : CdEnv :=
  ⟨true, id, fun _ => false, some ⟨id⟩, str "/music/", id, fun _ => true,
   true, false, id, id, fun _ _ => [], fun _ => none, str "cdda:///dev/sr0/"⟩

/-- A sample CD environment where the destination song already exists in
the managed collection. -/
def cdEnvExists : CdEnv := { cdEnv0 with songExists := fun _ => true }

/-! ## Claims -/

/-- Claim C2: a disconnected `UmsDevice` (with no cache rebuild pending —
per the state machine of the spec a cache rebuild only runs while
connected) reports `usedCapacity = -1`, `capacityString = "Not
Connected"` and `freeSpace = 0`; a connected device derives the values
from the filesystem size/used totals, except that a pending cache rebuild
replaces `usedCapacity` by the cached progress percentage and
`capacityString` by the current status message.  `freeSpace` is `0`
whenever disconnected, with no cache exception. -/
theorem ums_capacity_spec (env : UmsEnv) (st st2 st3 : UmsState)
    (hdis : st.connected = false) (hno : ¬ st.cacheProgress > -1)
    (hcon2 : st2.connected = true) (hno2 : ¬ st2.cacheProgress > -1)
    (hsz2 : 0 < st2.size)
    (hcon3 : st3.connected = true) (hyes3 : st3.cacheProgress > -1) :
    usedCapacity st = -1
    ∧ capacityString env st = str "Not Connected"
    ∧ freeSpace st = 0
    ∧ usedCapacity st2 = (st2.used : ℚ) / (st2.size : ℚ)
    ∧ capacityString env st2 = env.fmtBytes ((st2.size : Int) - (st2.used : Int)) ++ str " free"
    ∧ freeSpace st2 = (st2.size : Int) - (st2.used : Int)
    ∧ usedCapacity st3 = (st3.cacheProgress : ℚ) / 100
    ∧ capacityString env st3 = st3.statusMessage := by
  refine ⟨?_, ?_, ?_, ?_, ?_, ?_, ?_, ?_⟩ <;>
    simp [usedCapacity, capacityString, freeSpace, hdis, hno, hcon2, hno2,
          hsz2, hcon3, hyes3]

/-- Witness for C2 at concrete states. -/
theorem ums_capacity_spec_witness :
    (umsStDis.connected = false ∧ ¬ umsStDis.cacheProgress > -1
     ∧ umsStCon.connected = true ∧ ¬ umsStCon.cacheProgress > -1
     ∧ 0 < umsStCon.size
     ∧ umsStCache.connected = true ∧ umsStCache.cacheProgress > -1)
    ∧ usedCapacity umsStDis = -1
    ∧ capacityString umsEnv0 umsStDis = str "Not Connected"
    ∧ freeSpace umsStDis = 0 :=
  ⟨by decide,
   (ums_capacity_spec umsEnv0 umsStDis umsStCon umsStCache (by decide)
      (by decide) (by decide) (by decide) (by decide) (by decide) (by decide)).1,
   (ums_capacity_spec umsEnv0 umsStDis umsStCon umsStCache (by decide)
      (by decide) (by decide) (by decide) (by decide) (by decide) (by decide)).2.1,
   (ums_capacity_spec umsEnv0 umsStDis umsStCon umsStCache (by decide)
      (by decide) (by decide) (by decide) (by decide) (by decide) (by decide)).2.2.1⟩

/-- Claim C3: on a connected `AudioCdDevice`, `copySongTo` with
`overwrite=false` for a song whose (various-artists-normalized, when the
fix-various-artists option is enabled and the song is a various-artists
track) form already exists in the managed collection emits `SongExists`
and returns without starting an extraction job. -/
theorem copySongTo_songExists_guard (env : CdEnv) (st : CdState) (s : Song)
    (mp : Str) (cc : Bool)
    (hc : env.connected = true)
    (hex : env.songExists
      (if st.opts.fixVariousArtists && s.isVariousArtists then env.fixVA s else s) = true) :
    (copySongTo env st s mp false cc).events
      = [CdEvent.actionStatus Status.songExists false]
    ∧ (copySongTo env st s mp false cc).job = none := by
  have hex' : env.songExists
      (if st.opts.fixVariousArtists = true ∧ s.isVariousArtists = true
       then env.fixVA s else s) = true := by
    simpa [Bool.and_eq_true] using hex
  constructor <;> simp [copySongTo, copySongToGo, hc, hex']

/-- Witness for C3 at a concrete device, song and environment. -/
theorem copySongTo_songExists_guard_witness :
    (cdEnvExists.connected = true
     ∧ cdEnvExists.songExists
        (if cdSt0.opts.fixVariousArtists && songA.isVariousArtists
         then cdEnvExists.fixVA songA else songA) = true)
    ∧ (copySongTo cdEnvExists cdSt0 songA (str "A/Al/01.mp3") false false).events
        = [CdEvent.actionStatus Status.songExists false]
    ∧ (copySongTo cdEnvExists cdSt0 songA (str "A/Al/01.mp3") false false).job = none :=
  ⟨⟨rfl, rfl⟩,
   (copySongTo_songExists_guard cdEnvExists cdSt0 songA (str "A/Al/01.mp3")
      false rfl rfl).1,
   (copySongTo_songExists_guard cdEnvExists cdSt0 songA (str "A/Al/01.mp3")
      false rfl rfl).2⟩

/-- Claim C4: when the completion handler `copySongToResult` runs with the
abort flag set, it emits no `actionStatus` signal at all, and it deletes
the partially written destination file exactly when the job is present,
had started, and the file exists. -/
theorem copySongToResult_abort_spec (env : CdEnv) (st : CdState)
    (status : Status) (jobPresent started destExists coverCopied : Bool)
    (h : st.jobAbortRequested = true) :
    (copySongToResult env st status jobPresent started destExists coverCopied).events = []
    ∧ (copySongToResult env st status jobPresent started destExists coverCopied).deleted
        = (jobPresent && started && destExists) := by
  constructor <;> simp [copySongToResult, h]

/-- Witness for C4 at a concrete aborted state. -/
theorem copySongToResult_abort_spec_witness :
    (({ cdSt0 with jobAbortRequested := true } : CdState).jobAbortRequested = true)
    ∧ (copySongToResult cdEnv0 { cdSt0 with jobAbortRequested := true }
        Status.ok true true true false).events = []
    ∧ (copySongToResult cdEnv0 { cdSt0 with jobAbortRequested := true }
        Status.ok true true true false).deleted = (true && true && true) :=
  ⟨rfl,
   (copySongToResult_abort_spec cdEnv0 { cdSt0 with jobAbortRequested := true }
      Status.ok true true true false rfl).1,
   (copySongToResult_abort_spec cdEnv0 { cdSt0 with jobAbortRequested := true }
      Status.ok true true true false rfl).2⟩

/-- Claim C5: a `percent(pc)` callback delivered while an abort is pending
and `pc ≠ 100` asks the sending job to stop and emits no `progress`
signal; with `pc = 100`, or with no abort pending, the value is forwarded
via the `progress` signal. -/
theorem percent_abort_spec (st st2 : CdState) (pc : Int) (jb : Bool)
    (h1 : st.jobAbortRequested = true) (h2 : pc ≠ 100)
    (h3 : st2.jobAbortRequested = false) :
    percentRun st pc true = ⟨true, []⟩
    ∧ percentRun st 100 jb = ⟨false, [CdEvent.progress 100]⟩
    ∧ percentRun st2 pc jb = ⟨false, [CdEvent.progress pc]⟩ := by
  refine ⟨?_, ?_, ?_⟩ <;> simp [percentRun, h1, h2, h3]

/-- Witness for C5 at concrete states and percentages. -/
theorem percent_abort_spec_witness :
    (({ cdSt0 with jobAbortRequested := true } : CdState).jobAbortRequested = true
     ∧ (50 : Int) ≠ 100 ∧ cdSt0.jobAbortRequested = false)
    ∧ percentRun { cdSt0 with jobAbortRequested := true } 50 true = ⟨true, []⟩
    ∧ percentRun cdSt0 50 false = ⟨false, [CdEvent.progress 50]⟩ :=
  ⟨⟨rfl, by decide, rfl⟩,
   (percent_abort_spec { cdSt0 with jobAbortRequested := true } cdSt0 50 false
      rfl (by decide) rfl).1,
   (percent_abort_spec { cdSt0 with jobAbortRequested := true } cdSt0 50 false
      rfl (by decide) rfl).2.2⟩

/-- Claim C10: `copySongTo` resets the pending-abort flag to `false`
before any validation, so its whole outcome is identical to a call on a
state with the flag already cleared, the resulting flag is `false`, and a
later `percent` or `copySongToResult` callback for the new job (with no
fresh abort) forwards progress, deletes nothing, and emits exactly one
status signal. -/
theorem copySongTo_resets_abort (env : CdEnv) (st : CdState) (s : Song)
    (mp : Str) (ow cc : Bool) (pc : Int) (stt : Status) (jp sd de c2 : Bool)
    (h : st.jobAbortRequested = true) :
    (copySongTo env st s mp ow cc).newSt.jobAbortRequested = false
    ∧ copySongTo env st s mp ow cc
        = copySongTo env { st with jobAbortRequested := false } s mp ow cc
    ∧ percentRun (copySongTo env st s mp ow cc).newSt pc true
        = ⟨false, [CdEvent.progress pc]⟩
    ∧ (copySongToResult env (copySongTo env st s mp ow cc).newSt stt jp sd de c2).deleted
        = false
    ∧ (copySongToResult env (copySongTo env st s mp ow cc).newSt stt jp sd de c2).events.length
        = 1 := by
  have hja : (copySongTo env st s mp ow cc).newSt.jobAbortRequested = false := by
    rw [copySongTo, copySongToGo_abort]
  refine ⟨hja, rfl, ?_, ?_, ?_⟩
  · simp [percentRun, hja]
  · cases stt <;> simp [copySongToResult, hja]
  · cases stt <;> simp [copySongToResult, hja]

/-- Witness for C10 at a concrete state with a stale abort pending. -/
theorem copySongTo_resets_abort_witness :
    (({ cdSt0 with jobAbortRequested := true } : CdState).jobAbortRequested = true)
    ∧ (copySongTo cdEnv0 { cdSt0 with jobAbortRequested := true } songA
        (str "A/Al/01.mp3") false false).newSt.jobAbortRequested = false
    ∧ percentRun (copySongTo cdEnv0 { cdSt0 with jobAbortRequested := true } songA
        (str "A/Al/01.mp3") false false).newSt 50 true
        = ⟨false, [CdEvent.progress 50]⟩ :=
  ⟨rfl,
   (copySongTo_resets_abort cdEnv0 { cdSt0 with jobAbortRequested := true } songA
      (str "A/Al/01.mp3") false false 50 Status.ok true true true false rfl).1,
   (copySongTo_resets_abort cdEnv0 { cdSt0 with jobAbortRequested := true } songA
      (str "A/Al/01.mp3") false false 50 Status.ok true true true false rfl).2.2.1⟩

/-- A connected UMS device whose `vfatSafe` option differs from the
default while its filename scheme equals the default. -/
def umsStVfat : UmsState :=
  ⟨true, str "/mnt/", 100, 40, -1, [], str "N", str "N", str "/mnt/Music/",
   true, false, [], { sampleOpts with vfatSafe := true }⟩

/-- A connected UMS device whose filename scheme differs from the default
while its `vfatSafe` option equals the default. -/
def umsStScheme : UmsState :=
  { umsStVfat with opts := { sampleOpts with scheme := str "%track%" } }

/-- Claim C1 (documenting the source defect): `saveOptions` emits the
VFAT-safe key if and only if the filename scheme differs from its default
— the guard on `part_001` line 267 re-tests `opts.scheme`, not
`opts.vfatSafe`.  So whenever the scheme equals the default no written
line starts with the VFAT-safe key (regardless of `vfatSafe`), and
whenever the scheme differs the VFAT-safe line is written (regardless of
`vfatSafe`); the file content is the key lines followed by the preserved
unrecognized lines. -/
theorem saveOptions_vfatSafe_guard (d : DeviceOptions) (st st2 : UmsState)
    (hc : st.connected = true)
    (hs : st.opts.scheme = d.scheme)
    (hs2 : st2.opts.scheme ≠ d.scheme) :
    (∀ l ∈ saveKeyLines d st, (constVfatSafeKey ++ str "=").isPrefixOf l = false)
    ∧ (constVfatSafeKey ++ str "=" ++ boolStr st2.opts.vfatSafe) ∈ saveKeyLines d st2
    ∧ saveOptionsLines d st = some (saveKeyLines d st ++ st.unusedParams) := by
  refine ⟨?_, ?_, ?_⟩
  · intro l hl
    simp only [saveKeyLines, List.mem_append] at hl
    rcases hl with ((((((h | h) | h) | h) | h) | h) | h)
    · rw [mem_iteSingleton h]; rfl
    · rw [mem_iteSingleton h]; rfl
    · rw [if_neg (fun hcon => hcon hs)] at h
      exact absurd h (List.not_mem_nil l)
    · rw [mem_iteSingleton h]; rfl
    · rw [mem_iteSingleton h]; rfl
    · rw [mem_iteSingleton h]; rfl
    · rw [mem_iteSingleton h]; rfl
  · simp only [saveKeyLines, List.mem_append]
    have hmem : (constVfatSafeKey ++ str "=" ++ boolStr st2.opts.vfatSafe)
        ∈ (if st2.opts.scheme ≠ d.scheme
           then [constVfatSafeKey ++ str "=" ++ boolStr st2.opts.vfatSafe] else []) := by
      rw [if_pos hs2]
      exact List.mem_singleton_self _
    tauto
  · simp [saveOptionsLines, hc]

/-- Witness for C1: at the concrete failing inputs, `vfatSafe` differs
from its default yet no VFAT-safe line is written, and conversely the
line is written when only the scheme differs. -/
theorem saveOptions_vfatSafe_guard_witness :
    (umsStVfat.connected = true
     ∧ umsStVfat.opts.scheme = sampleOpts.scheme
     ∧ umsStVfat.opts.vfatSafe ≠ sampleOpts.vfatSafe
     ∧ umsStScheme.opts.scheme ≠ sampleOpts.scheme
     ∧ umsStScheme.opts.vfatSafe = sampleOpts.vfatSafe)
    ∧ (∀ l ∈ saveKeyLines sampleOpts umsStVfat,
        (constVfatSafeKey ++ str "=").isPrefixOf l = false)
    ∧ (constVfatSafeKey ++ str "=" ++ boolStr umsStScheme.opts.vfatSafe)
        ∈ saveKeyLines sampleOpts umsStScheme :=
  ⟨by decide,
   (saveOptions_vfatSafe_guard sampleOpts umsStVfat umsStScheme rfl rfl
      (by decide)).1,
   (saveOptions_vfatSafe_guard sampleOpts umsStVfat umsStScheme rfl rfl
      (by decide)).2.1⟩

/-- A sample metadata match candidate. -/
def albX : CdAlbum := ⟨str "A1", str "Art", [], [], 1999, 1, [songA], false⟩

/-- A second, distinct metadata match candidate. -/
def albY : CdAlbum := { albX with name := str "A2" }

/-- Claim C6 counterexample: delivering a two-element candidate list to
`cdMatches` does mutate device state — it clears the in-flight-lookup
flag (`lookupInProcess=false` is executed before the count dispatch). -/
theorem cdMatches_state_cex : (cdMatches cdEnv0 cdSt0 [albX, albY]).1 ≠ cdSt0 := by
  decide

/-- Claim C6 (amended): a one-element candidate list is applied via
`setDetails`; a list of more than one element emits the `matches`
disambiguation event and changes no device state other than clearing the
in-flight-lookup flag; an empty list likewise only clears that flag,
leaving the content in its prior (initial placeholder) state. -/
theorem cdMatches_spec (env : CdEnv) (st : CdState) (a : CdAlbum)
    (albums : List CdAlbum) (h : 1 < albums.length) :
    cdMatches env st [a] = setDetails env st a
    ∧ cdMatches env st albums
        = ({ st with lookupInProcess := false }, [CdEvent.matchesEvt st.idStr albums])
    ∧ cdMatches env st [] = ({ st with lookupInProcess := false }, []) := by
  refine ⟨?_, ?_, ?_⟩
  · cases st
    rfl
  · cases albums with
    | nil => simp at h
    | cons x t =>
      cases t with
      | nil => simp at h
      | cons y t2 => rfl
  · rfl

/-- Witness for C6 at a concrete two-element candidate list. -/
theorem cdMatches_spec_witness :
    (1 < ([albX, albY] : List CdAlbum).length)
    ∧ cdMatches cdEnv0 cdSt0 [albX, albY]
        = ({ cdSt0 with lookupInProcess := false },
           [CdEvent.matchesEvt cdSt0.idStr [albX, albY]]) :=
  ⟨by decide,
   (cdMatches_spec cdEnv0 cdSt0 albX [albX, albY] (by decide)).2.1⟩

/-- The wrap-around accumulation of `totalTime` computes the modular sum
of the track durations. -/
lemma foldl_timeSum (l : List Song) : ∀ a : Nat,
    l.foldl timeSumStep (a % 4294967296)
      = (a + (l.map (fun s => s.time)).sum) % 4294967296 := by
  induction l with
  | nil => intro a; simp
  | cons s t ih =>
    intro a
    simp only [List.foldl_cons, List.map_cons, List.sum_cons]
    have h1 : timeSumStep (a % 4294967296) s = (a + s.time) % 4294967296 := by
      simp [timeSumStep, Nat.mod_add_mod]
    rw [h1, ih (a + s.time), Nat.add_assoc]

/-- The modular duration sum of a device's children, starting from `0` as
in the source. -/
lemma foldl_timeSum_zero (l : List Song) :
    l.foldl timeSumStep 0
      = ((l.map (fun s => s.time)).sum) % 4294967296 := by
  have h := foldl_timeSum l 0
  simpa using h

/-- `totalTime` on an uncomputed (sentinel) cache: the returned value. -/
lemma totalTime_fst_fresh (st : CdState) (h : st.time = 4294967295) :
    (totalTime st).1 = st.childSongs.foldl timeSumStep 0 := by
  simp [totalTime, h]

/-- `totalTime` on an uncomputed (sentinel) cache: the returned state. -/
lemma totalTime_snd_fresh (st : CdState) (h : st.time = 4294967295) :
    (totalTime st).2 = { st with time := st.childSongs.foldl timeSumStep 0 } := by
  simp [totalTime, h]

/-- `totalTime` on a computed cache returns the cached field. -/
lemma totalTime_fst_cached (st : CdState) (h : st.time ≠ 4294967295) :
    (totalTime st).1 = st.time := by
  simp [totalTime, h]

/-- A track whose duration is the largest `quint16` value. -/
def cdTimeSong : Song := ⟨[], [], [], [], [], 65535, 0, false⟩

/-- A short additional track. -/
def cdTimeSmall : Song := { cdTimeSong with time := 5 }

/-- A CD device whose children's durations sum to exactly `0xFFFFFFFF`
(65537 tracks of 65535 seconds). -/
def cdTimeSt : CdState := { cdSt0 with childSongs := List.replicate 65537 cdTimeSong }

/-- Claim C9 counterexample: when the computed total equals the sentinel
`0xFFFFFFFF`, the cache is indistinguishable from "uncomputed": after the
first call, adding one more track and calling `totalTime` again re-sums
and returns a different value, so a subsequent call does not return the
cached value. -/
theorem totalTime_sentinel_cex :
    (totalTime { (totalTime cdTimeSt).2 with
        childSongs := cdTimeSt.childSongs ++ [cdTimeSmall] }).1
      ≠ (totalTime cdTimeSt).1 := by
  have hsum1 : ((cdTimeSt.childSongs.map (fun s => s.time)).sum) = 4294967295 := by
    show (((List.replicate 65537 cdTimeSong).map (fun s => s.time)).sum) = 4294967295
    rw [List.map_replicate, List.sum_replicate, smul_eq_mul]
    norm_num [cdTimeSong]
  have hfold1 : cdTimeSt.childSongs.foldl timeSumStep 0 = 4294967295 := by
    rw [foldl_timeSum_zero, hsum1]
  have ht0 : cdTimeSt.time = 4294967295 := rfl
  have hfst : (totalTime cdTimeSt).1 = 4294967295 := by
    rw [totalTime_fst_fresh cdTimeSt ht0, hfold1]
  have hsnd : (totalTime cdTimeSt).2 = { cdTimeSt with time := 4294967295 } := by
    rw [totalTime_snd_fresh cdTimeSt ht0, hfold1]
  have hfold2 : (cdTimeSt.childSongs ++ [cdTimeSmall]).foldl timeSumStep 0 = 4 := by
    rw [foldl_timeSum_zero, List.map_append, List.sum_append, hsum1]
    norm_num [cdTimeSmall, cdTimeSong]
  rw [hfst, hsnd, totalTime_fst_fresh _ rfl]
  have hch : ({ { cdTimeSt with time := 4294967295 } with
      childSongs := cdTimeSt.childSongs ++ [cdTimeSmall] } : CdState).childSongs
        = cdTimeSt.childSongs ++ [cdTimeSmall] := rfl
  rw [hch, hfold2]
  decide

/-- Claim C9 (amended): the constructor initializes `time` to the
sentinel `0xFFFFFFFF`; with the sentinel in place, a `totalTime` call
sums the current children's durations (modulo `2^32`, returning `0` when
there are none) and caches the result; provided the computed total is not
itself the sentinel value, every subsequent call — even after adding
child tracks — returns the cached value without re-summing. -/
theorem totalTime_caching_spec (st : CdState) (extra : List Song)
    (o : DeviceOptions) (s0 : Song) (idv : Str)
    (h : st.time = 4294967295) :
    (initCdState idv o s0).time = 4294967295
    ∧ (totalTime st).1 = ((st.childSongs.map (fun s => s.time)).sum) % 4294967296
    ∧ (totalTime st).2 = { st with time := (totalTime st).1 }
    ∧ (st.childSongs = [] → (totalTime st).1 = 0)
    ∧ ((totalTime st).1 ≠ 4294967295 →
        (totalTime { (totalTime st).2 with
            childSongs := (totalTime st).2.childSongs ++ extra }).1
          = (totalTime st).1) := by
  have hfold : st.childSongs.foldl timeSumStep 0
      = ((st.childSongs.map (fun s => s.time)).sum) % 4294967296 :=
    foldl_timeSum_zero st.childSongs
  refine ⟨rfl, ?_, ?_, ?_, ?_⟩
  · simp [totalTime, h, hfold]
  · simp [totalTime, h]
  · intro he
    simp [totalTime, h, he]
  · intro hne
    have hfr := totalTime_fst_fresh st h
    rw [hfr] at hne
    rw [totalTime_snd_fresh st h, hfr]
    rw [totalTime_fst_cached _ hne]

/-- Witness for C9 on the spec's own example: two tracks of 120 and 200
seconds total 320, and the cached value survives adding another track. -/
def cdT9St : CdState :=
  { cdSt0 with childSongs :=
      [{ cdTimeSong with time := 120 }, { cdTimeSong with time := 200 }] }

/-- Witness for C9 at the concrete two-track device. -/
theorem totalTime_caching_spec_witness :
    (cdT9St.time = 4294967295)
    ∧ (totalTime cdT9St).1 = ((cdT9St.childSongs.map (fun s => s.time)).sum) % 4294967296
    ∧ ((totalTime cdT9St).1 ≠ 4294967295 →
        (totalTime { (totalTime cdT9St).2 with
            childSongs := (totalTime cdT9St).2.childSongs ++ [cdTimeSmall] }).1
          = (totalTime cdT9St).1) :=
  ⟨rfl,
   (totalTime_caching_spec cdT9St [cdTimeSmall] sampleOpts songA (str "UDI") rfl).2.1,
   (totalTime_caching_spec cdT9St [cdTimeSmall] sampleOpts songA (str "UDI") rfl).2.2.2.2⟩

/-- One settings line either updates a recognized option or is appended
verbatim to the preserved unrecognized lines. -/
lemma parseLine_unused (env : UmsEnv) (p : Str) (acc : ParseAcc) (l : Str) :
    (parseLine env p acc l).unusedParams
      = acc.unusedParams ++ (if recognizedLine l then [] else [l]) := by
  simp only [parseLine, recognizedLine]
  repeat' split <;> simp_all

/-- The settings loop collects exactly the unrecognized lines, in order,
after whatever was already preserved. -/
lemma foldl_parse_unused (env : UmsEnv) (p : Str) :
    ∀ (lines : List Str) (acc : ParseAcc),
      (lines.foldl (parseLine env p) acc).unusedParams
        = acc.unusedParams ++ lines.filter (fun l => !recognizedLine l) := by
  intro lines
  induction lines with
  | nil => intro acc; simp
  | cons l t ih =>
    intro acc
    simp only [List.foldl_cons, List.filter_cons]
    rw [ih, parseLine_unused]
    by_cases h : recognizedLine l = true <;> simp [h, List.append_assoc]

/-- `setup` does not change the connection state. -/
lemma setup_connected (env : UmsEnv) (st : UmsState) :
    ((setup env st).1).connected = st.connected := by
  simp only [setup]
  split
  · rfl
  · rfl

/-- When connected and the settings file opens, `setup` leaves exactly
the previously preserved lines followed by the file's unrecognized
lines. -/
lemma setup_unused (env : UmsEnv) (st : UmsState) (lines : List Str)
    (hc : st.connected = true) (hf : env.fileLines = some lines) :
    ((setup env st).1).unusedParams
      = st.unusedParams ++ lines.filter (fun l => !recognizedLine l) := by
  simp only [setup, hf]
  rw [if_neg (by simp [hc])]
  simp [foldl_parse_unused]

/-- Every line emitted by the recognized-key part of `saveOptions` begins
with a recognized key. -/
lemma saveKeyLines_recognized (d : DeviceOptions) (st : UmsState) :
    ∀ l ∈ saveKeyLines d st, recognizedLine l = true := by
  intro l hl
  simp only [saveKeyLines, List.mem_append] at hl
  rcases hl with ((((((h | h) | h) | h) | h) | h) | h) <;>
    rw [mem_iteSingleton h] <;>
    simp [recognizedLine, prefixOf_append_self]

/-- The settings file of the round-trip scenario: a folder key, a
VFAT-safe key set to `true`, and one unrecognized line. -/
def ums7Env : UmsEnv :=
  ⟨some [str "audio_folder=Music", str "vfat_safe=true", str "# extra line"],
   false, id, id, fun _ => true, fun _ => []⟩

/-- The connected device reading the round-trip settings file. -/
def ums7St : UmsState :=
  ⟨true, str "/mnt/", 100, 10, -1, [], str "N", str "N", str "/mnt/",
   false, false, [], sampleOpts⟩

/-- An empty parse accumulator over the sample options. -/
def ums7Acc : ParseAcc := ⟨[], str "/mnt/", sampleOpts, []⟩

/-- Claim C7: settings lines not beginning with a recognized key are
collected verbatim by `setup()` and re-emitted unchanged after the
recognized keys by the next `saveOptions()`; in the concrete scenario
(`audio_folder=Music`, `vfat_safe=true`, one unrecognized line) the
parsed `vfatSafe` is `true` — boolean keys compare the value text against
the literal `true` — and the unrecognized line survives into the
rewritten file. -/
theorem settings_roundtrip_spec (env : UmsEnv) (st : UmsState)
    (lines : List Str) (d : DeviceOptions)
    (hc : st.connected = true)
    (hf : env.fileLines = some lines) :
    ((setup env st).1).unusedParams
      = st.unusedParams ++ lines.filter (fun l => !recognizedLine l)
    ∧ saveOptionsLines d (setup env st).1
        = some (saveKeyLines d (setup env st).1 ++ ((setup env st).1).unusedParams)
    ∧ (saveKeyLines d (setup env st).1).all recognizedLine = true
    ∧ ((setup ums7Env ums7St).1).opts.vfatSafe = true
    ∧ ((setup ums7Env ums7St).1).unusedParams = [str "# extra line"]
    ∧ (str "# extra line") ∈ (saveOptionsLines sampleOpts (setup ums7Env ums7St).1).getD []
    ∧ (parseLine ums7Env (str "/mnt/") ums7Acc (str "vfat_safe=true")).opts.vfatSafe = true
    ∧ (parseLine ums7Env (str "/mnt/") ums7Acc (str "vfat_safe=True")).opts.vfatSafe = false := by
  refine ⟨setup_unused env st lines hc hf, ?_, ?_, by decide, by decide, by decide,
          by decide, by decide⟩
  · have hcon : ((setup env st).1).connected = true := by
      rw [setup_connected, hc]
    simp [saveOptionsLines, hcon]
  · exact List.all_eq_true.mpr (saveKeyLines_recognized d (setup env st).1)

/-- Witness for C7 at the concrete round-trip scenario. -/
theorem settings_roundtrip_spec_witness :
    (ums7St.connected = true
     ∧ ums7Env.fileLines
        = some [str "audio_folder=Music", str "vfat_safe=true", str "# extra line"])
    ∧ ((setup ums7Env ums7St).1).unusedParams
        = ums7St.unusedParams
          ++ [str "audio_folder=Music", str "vfat_safe=true",
              str "# extra line"].filter (fun l => !recognizedLine l)
    ∧ ((setup ums7Env ums7St).1).opts.vfatSafe = true :=
  ⟨⟨rfl, rfl⟩,
   (settings_roundtrip_spec ums7Env ums7St _ sampleOpts rfl rfl).1,
   (settings_roundtrip_spec ums7Env ums7St _ sampleOpts rfl rfl).2.2.2.1⟩

/-- `lastIndexOfFrom` finds a position whose occurrence is not followed
by any later occurrence within the search bound. -/
lemma lastIndexOfFrom_eq (s pat : Str) (k : Nat) :
    ∀ n, k ≤ n → pat.isPrefixOf (s.drop k) = true →
      (∀ p, k < p → p ≤ n → pat.isPrefixOf (s.drop p) = false) →
      lastIndexOfFrom s pat n = some k := by
  intro n
  induction n with
  | zero =>
    intro hk hpre _
    have hz : k = 0 := Nat.le_zero.mp hk
    subst hz
    rw [List.drop_zero] at hpre
    simp [lastIndexOfFrom, hpre]
  | succ n ih =>
    intro hk hpre hlast
    by_cases hkn : k = n + 1
    · subst hkn
      simp [lastIndexOfFrom, hpre]
    · have hk2 : k ≤ n := Nat.lt_succ_iff.mp (Nat.lt_of_le_of_ne hk hkn)
      have hnot : pat.isPrefixOf (s.drop (n + 1)) = false :=
        hlast (n + 1) (Nat.lt_succ_of_le hk2) (Nat.le_refl _)
      simp only [lastIndexOfFrom, hnot]
      simp only [Bool.false_eq_true, if_false]
      exact ih hk2 hpre (fun p h1 h2 => hlast p h1 (Nat.le_succ_of_le h2))

/-- Claim C8: for a `cdda`-scheme URL, `getDevice` returns the `dev`
query parameter when present and the "any device" sentinel `-` when
absent; for a non-`cdda` URL whose path starts with `/run/user/` and
whose text after the last occurrence of the `/gvfs/cdda:host=` marker is
`name`, it returns `/dev/<name>`. -/
theorem getDevice_spec (u v w : UrlM) (pre name : Str)
    (hu : u.scheme = str "cdda") (hud : hasQueryItem u.query (str "dev") = true)
    (hv : v.scheme = str "cdda") (hvd : hasQueryItem v.query (str "dev") = false)
    (hw : ¬ w.scheme = str "cdda")
    (hwp : w.path = pre ++ gvfsMarker ++ name)
    (hrun : (str "/run/user/").isPrefixOf w.path = true)
    (hlast : ∀ p, p ≤ w.path.length → pre.length < p →
      gvfsMarker.isPrefixOf (w.path.drop p) = false) :
    getDevice u = queryItemValue u.query (str "dev")
    ∧ getDevice v = constAnyDev
    ∧ getDevice w = str "/dev/" ++ name := by
  refine ⟨?_, ?_, ?_⟩
  · simp [getDevice, hu, hud]
  · simp [getDevice, hv, hvd]
  · have hpre0 : gvfsMarker.isPrefixOf (w.path.drop pre.length) = true := by
      rw [hwp, List.append_assoc, List.drop_left]
      exact prefixOf_append_self gvfsMarker name
    have hlen : pre.length ≤ w.path.length := by
      rw [hwp]
      simp only [List.length_append]
      omega
    have hLI : lastIndexOf w.path gvfsMarker = some pre.length :=
      lastIndexOfFrom_eq w.path gvfsMarker pre.length w.path.length hlen hpre0
        (fun p h1 h2 => hlast p h2 h1)
    simp only [getDevice, lastIndexOf] at hLI ⊢
    rw [if_neg hw, if_pos hrun, hLI, hwp]
    show str "/dev/" ++ (pre ++ gvfsMarker ++ name).drop (pre.length + gvfsMarker.length)
        = str "/dev/" ++ name
    rw [← List.length_append, List.drop_left]

/-- The URL `cdda:///?dev=/dev/sr1`. -/
def urlQ : UrlM := ⟨str "cdda", str "/", [(str "dev", str "/dev/sr1")]⟩

/-- A bare `cdda://` URL with no query. -/
def urlBare : UrlM := ⟨str "cdda", [], []⟩

/-- A gvfs host-mount URL for drive `sr0`. -/
def urlGvfs : UrlM := ⟨str "file", str "/run/user/1000/gvfs/cdda:host=sr0", []⟩

/-- Witness for C8 at the three concrete URLs of the claim. -/
theorem getDevice_spec_witness :
    (queryItemValue urlQ.query (str "dev") = str "/dev/sr1")
    ∧ getDevice urlQ = queryItemValue urlQ.query (str "dev")
    ∧ getDevice urlBare = constAnyDev
    ∧ getDevice urlGvfs = str "/dev/" ++ str "sr0" :=
  ⟨by decide,
   (getDevice_spec urlQ urlBare urlGvfs (str "/run/user/1000") (str "sr0")
      (by decide) (by decide) (by decide) (by decide) (by decide) (by decide)
      (by decide) (by decide)).1,
   (getDevice_spec urlQ urlBare urlGvfs (str "/run/user/1000") (str "sr0")
      (by decide) (by decide) (by decide) (by decide) (by decide) (by decide)
      (by decide) (by decide)).2.1,
   (getDevice_spec urlQ urlBare urlGvfs (str "/run/user/1000") (str "sr0")
      (by decide) (by decide) (by decide) (by decide) (by decide) (by decide)
      (by decide) (by decide)).2.2⟩

end Cantata
